import Mathlib

/-!
Verification of the measurement core of the DuckDB benchmark harness
(`benchmark.py`): the `ResourceMonitor` sampler, the `run_query` timed
execution wrapper, and the experiment runner's aggregation loop in `main`.

Floats are modelled as rationals (`ℚ`); the wall clock `time.time()` is
modelled as a stream of readings supplied per run; the query engine call
`conn.execute(sql).fetchall()` is modelled as its outcome
(`Except String Unit`); the sampling thread's psutil observations are
modelled as a list of fallible (cpu, memory) reading pairs consumed by the
sampling loop.
-/

namespace DuckDBBench

/-- Arithmetic mean of a list of rationals (specification-side notion). -/
def mean (xs : List ℚ) : ℚ := xs.sum / xs.length

/-- Python's `max` over a list: `none` on the empty list (where Python
raises `ValueError`), otherwise the fold of `max` from the head. -/
def pyMax : List ℚ → Option ℚ
  | [] => none
  | x :: xs => some (xs.foldl max x)

/-- State of `ResourceMonitor` (benchmark.py lines 13–50): the sampling
interval, the `running` flag, the two append-only sample series and the
optional thread handle (`None` until `start()` is called). -/
structure ResourceMonitor where
  interval : ℚ
  running : Bool
  cpu_usage : List ℚ
  memory_usage : List ℚ
  thread : Option Unit

/-- `ResourceMonitor.__init__(interval)`: no thread, not running, empty
sample series. -/
def ResourceMonitor.init (interval : ℚ) : ResourceMonitor :=
  { interval := interval, running := false, cpu_usage := [], memory_usage := [],
    thread := none }

/-- `start()`: set the running flag and spawn the sampling thread. -/
def ResourceMonitor.start (m : ResourceMonitor) : ResourceMonitor :=
  { m with running := true, thread := some () }

/-- `stop()`: clear the running flag; join the thread only when one exists
(`if self.thread: self.thread.join()`). The boolean reports whether a join
was performed. `stop` always returns normally (it is a total function). -/
def ResourceMonitor.stop (m : ResourceMonitor) : ResourceMonitor × Bool :=
  ({ m with running := false }, m.thread.isSome)

/-- `get_stats()`: `(0, 0)` when no cpu samples were recorded, otherwise
the mean of the cpu series and Python's `max` of the memory series
(with the code's explicit `if self.memory_usage else 0` guard). -/
def ResourceMonitor.get_stats (m : ResourceMonitor) : ℚ × ℚ :=
  if m.cpu_usage = [] then (0, 0)
  else (m.cpu_usage.sum / m.cpu_usage.length, (pyMax m.memory_usage).getD 0)

/-- The body of `_monitor` (lines 21–33) driven by a finite stream of
observation pairs: each loop iteration reads `process.cpu_percent` and
`process.memory_info().rss`, both fallible; only when both succeed are the
two values appended (together) to the series; any failure hits the
`except Exception: break` and the loop returns with the series unchanged
by that iteration. An exhausted stream models `self.running` turning
false at the loop head. -/
def monitorLoop (m : ResourceMonitor) :
    List (Except String ℚ × Except String ℚ) → ResourceMonitor
  | [] => m
  | (cpuObs, memObs) :: rest =>
    match cpuObs with
    | .error _ => m
    | .ok cpu =>
      match memObs with
      | .error _ => m
      | .ok mem =>
        monitorLoop
          { m with cpu_usage := m.cpu_usage ++ [cpu],
                   memory_usage := m.memory_usage ++ [mem] } rest

/-- Fully successful observation stream built from plain sample pairs. -/
def okObs (samples : List (ℚ × ℚ)) :
    List (Except String ℚ × Except String ℚ) :=
  samples.map fun p => (Except.ok p.1, Except.ok p.2)

/-- Monitor state after a started, fresh monitor has recorded the given
samples without any observation failure. -/
def monitorAfter (samples : List (ℚ × ℚ)) : ResourceMonitor :=
  monitorLoop ((ResourceMonitor.init (1/10)).start) (okObs samples)

theorem okObs_cons (p : ℚ × ℚ) (rest : List (ℚ × ℚ)) :
    okObs (p :: rest) = (Except.ok p.1, Except.ok p.2) :: okObs rest := rfl

theorem monitorLoop_okObs (samples : List (ℚ × ℚ)) : ∀ m : ResourceMonitor,
    monitorLoop m (okObs samples) =
      { m with cpu_usage := m.cpu_usage ++ samples.map Prod.fst,
               memory_usage := m.memory_usage ++ samples.map Prod.snd } := by
  induction samples with
  | nil => intro m; simp [okObs, monitorLoop]
  | cons p rest ih =>
      intro m
      rw [okObs_cons]
      show monitorLoop { m with cpu_usage := m.cpu_usage ++ [p.1],
                                memory_usage := m.memory_usage ++ [p.2] }
            (okObs rest) = _
      rw [ih]
      simp [List.append_assoc]

theorem foldl_max_mem (xs : List ℚ) : ∀ x : ℚ, xs.foldl max x ∈ x :: xs := by
  induction xs with
  | nil => intro x; simp
  | cons y ys ih =>
      intro x
      have h := ih (max x y)
      rcases List.mem_cons.mp h with h1 | h1
      · rcases max_choice x y with hc | hc <;>
          · rw [List.foldl_cons, h1, hc]; simp
      · simp [List.foldl_cons, List.mem_cons, h1]

theorem le_foldl_max (xs : List ℚ) :
    ∀ x : ℚ, x ≤ xs.foldl max x ∧ ∀ y ∈ xs, y ≤ xs.foldl max x := by
  induction xs with
  | nil => intro x; simp
  | cons z zs ih =>
      intro x
      obtain ⟨h1, h2⟩ := ih (max x z)
      simp only [List.foldl_cons]
      refine ⟨le_trans (le_max_left x z) h1, ?_⟩
      intro y hy
      rcases List.mem_cons.mp hy with h | h
      · rw [h]; exact le_trans (le_max_right x z) h1
      · exact h2 y h

theorem get_stats_of_nonempty (m : ResourceMonitor) (h : m.cpu_usage ≠ []) :
    m.get_stats = (mean m.cpu_usage, (pyMax m.memory_usage).getD 0) := by
  rw [ResourceMonitor.get_stats, if_neg h]; rfl

theorem pyMax_spec (xs : List ℚ) (h : xs ≠ []) :
    ∃ v, pyMax xs = some v ∧ v ∈ xs ∧ ∀ y ∈ xs, y ≤ v := by
  match xs, h with
  | x :: rest, _ =>
      refine ⟨rest.foldl max x, rfl, foldl_max_mem rest x, ?_⟩
      intro y hy
      obtain ⟨h1, h2⟩ := le_foldl_max rest x
      rcases List.mem_cons.mp hy with hy1 | hy1
      · rw [hy1]; exact h1
      · exact h2 y hy1

theorem monitorAfter_cpu (samples : List (ℚ × ℚ)) :
    (monitorAfter samples).cpu_usage = samples.map Prod.fst := by
  rw [monitorAfter, monitorLoop_okObs]
  simp [ResourceMonitor.init, ResourceMonitor.start]

theorem monitorAfter_memory (samples : List (ℚ × ℚ)) :
    (monitorAfter samples).memory_usage = samples.map Prod.snd := by
  rw [monitorAfter, monitorLoop_okObs]
  simp [ResourceMonitor.init, ResourceMonitor.start]

/-- C3: after the sampler has recorded N samples and stopped, `get_stats`
returns exactly the arithmetic mean of the recorded cpu values and the
maximum of the recorded memory values; on zero recorded samples it
returns `(0, 0)` rather than failing. -/
theorem getStats_exact_mean_and_peak (samples : List (ℚ × ℚ)) :
    (samples ≠ [] →
      (monitorAfter samples).get_stats.1 = mean (samples.map Prod.fst)
      ∧ (monitorAfter samples).get_stats.2 ∈ samples.map Prod.snd
      ∧ ∀ y ∈ samples.map Prod.snd, y ≤ (monitorAfter samples).get_stats.2)
    ∧ (samples = [] → (monitorAfter samples).get_stats = (0, 0)) := by
  constructor
  · intro h
    have hne : (monitorAfter samples).cpu_usage ≠ [] := by
      rw [monitorAfter_cpu]; simpa using h
    have hmne : (monitorAfter samples).memory_usage ≠ [] := by
      rw [monitorAfter_memory]; simpa using h
    obtain ⟨v, hv, hvmem, hvub⟩ := pyMax_spec _ hmne
    rw [get_stats_of_nonempty _ hne, monitorAfter_cpu] at *
    refine ⟨rfl, ?_, ?_⟩
    · simp only [hv, Option.getD_some]
      rw [monitorAfter_memory] at hvmem
      exact hvmem
    · intro y hy
      simp only [hv, Option.getD_some]
      rw [monitorAfter_memory] at hvub
      exact hvub y hy
  · intro h
    rw [h]
    rfl

theorem getStats_witness :
    (monitorAfter [((10 : ℚ), (100 : ℚ)), (20, 150)]).get_stats.1 = mean [10, 20]
    ∧ (monitorAfter [((10 : ℚ), (100 : ℚ)), (20, 150)]).get_stats.2 ∈ [(100 : ℚ), 150]
    ∧ (monitorAfter ([] : List (ℚ × ℚ))).get_stats = (0, 0) := by
  have h := getStats_exact_mean_and_peak [((10 : ℚ), (100 : ℚ)), (20, 150)]
  have h0 := getStats_exact_mean_and_peak ([] : List (ℚ × ℚ))
  obtain ⟨ha, hb, _⟩ := h.1 (by simp)
  exact ⟨ha, by simpa using hb, h0.2 rfl⟩

theorem monitorLoop_bad (m : ResourceMonitor)
    (bad : Except String ℚ × Except String ℚ)
    (post : List (Except String ℚ × Except String ℚ))
    (hbad : (∃ e, bad.1 = Except.error e) ∨ (∃ e, bad.2 = Except.error e)) :
    monitorLoop m (bad :: post) = m := by
  obtain ⟨b1, b2⟩ := bad
  cases b1 with
  | error e => rfl
  | ok c =>
    cases b2 with
    | error e => rfl
    | ok d => rcases hbad with ⟨e, he⟩ | ⟨e, he⟩ <;> simp at he

theorem monitorLoop_okObs_append (pre : List (ℚ × ℚ))
    (tail : List (Except String ℚ × Except String ℚ)) :
    ∀ m : ResourceMonitor,
      monitorLoop m (okObs pre ++ tail) =
        monitorLoop (monitorLoop m (okObs pre)) tail := by
  induction pre with
  | nil => intro m; rfl
  | cons p rest ih =>
      intro m
      rw [okObs_cons, List.cons_append]
      show monitorLoop { m with cpu_usage := m.cpu_usage ++ [p.1],
                                memory_usage := m.memory_usage ++ [p.2] }
            (okObs rest ++ tail) =
          monitorLoop
            (monitorLoop { m with cpu_usage := m.cpu_usage ++ [p.1],
                                  memory_usage := m.memory_usage ++ [p.2] }
              (okObs rest)) tail
      exact ih _

/-- C8: when one sampling observation fails (either the cpu reading or the
memory reading), the sampling loop terminates early at that point: the
observations after the failure are never consumed, the partial series
recorded before the failure is retained, and the loop returns normally
(it is a total function, so the failure is never propagated). -/
theorem sampling_failure_stops_early (m : ResourceMonitor)
    (pre : List (ℚ × ℚ)) (bad : Except String ℚ × Except String ℚ)
    (post : List (Except String ℚ × Except String ℚ))
    (hbad : (∃ e, bad.1 = Except.error e) ∨ (∃ e, bad.2 = Except.error e)) :
    monitorLoop m (okObs pre ++ bad :: post) = monitorLoop m (okObs pre)
    ∧ (monitorLoop m (okObs pre ++ bad :: post)).cpu_usage
        = m.cpu_usage ++ pre.map Prod.fst
    ∧ (monitorLoop m (okObs pre ++ bad :: post)).memory_usage
        = m.memory_usage ++ pre.map Prod.snd := by
  have hmain : monitorLoop m (okObs pre ++ bad :: post) = monitorLoop m (okObs pre) := by
    rw [monitorLoop_okObs_append, monitorLoop_bad _ bad post hbad]
  refine ⟨hmain, ?_, ?_⟩ <;> rw [hmain, monitorLoop_okObs]

theorem sampling_failure_witness :
    monitorLoop (ResourceMonitor.init (1/10)).start
        (okObs [(10, 100)] ++ (Except.error "psutil failure", Except.ok 0)
          :: okObs [(20, 200)])
      = monitorLoop (ResourceMonitor.init (1/10)).start (okObs [(10, 100)])
    ∧ (monitorLoop (ResourceMonitor.init (1/10)).start
        (okObs [(10, 100)] ++ (Except.error "psutil failure", Except.ok 0)
          :: okObs [(20, 200)])).cpu_usage = [10] := by
  have h := sampling_failure_stops_early (ResourceMonitor.init (1/10)).start
    [(10, 100)] (Except.error "psutil failure", Except.ok 0) (okObs [(20, 200)])
    (Or.inl ⟨"psutil failure", rfl⟩)
  refine ⟨h.1, ?_⟩
  rw [h.2.1]
  rfl

theorem monitorLoop_len_eq (obs : List (Except String ℚ × Except String ℚ)) :
    ∀ m : ResourceMonitor, m.cpu_usage.length = m.memory_usage.length →
      (monitorLoop m obs).cpu_usage.length
        = (monitorLoop m obs).memory_usage.length := by
  induction obs with
  | nil => intro m h; exact h
  | cons p rest ih =>
      intro m h
      obtain ⟨b1, b2⟩ := p
      cases b1 with
      | error e => exact h
      | ok c =>
        cases b2 with
        | error e => exact h
        | ok d =>
          show (monitorLoop { m with cpu_usage := m.cpu_usage ++ [c],
                                     memory_usage := m.memory_usage ++ [d] }
                  rest).cpu_usage.length = _
          apply ih
          simp [h]

/-- C9: every sampling step appends to the cpu series and the memory series
together (a failed observation appends to neither), so the two series have
equal length after initialization, after `start`, after `stop`, and after
any run of the sampling loop from a state where they had equal length; in
particular one series is empty exactly when the other is. -/
theorem sample_series_lengths_agree (i : ℚ) (m : ResourceMonitor)
    (obs : List (Except String ℚ × Except String ℚ))
    (h : m.cpu_usage.length = m.memory_usage.length) :
    (ResourceMonitor.init i).cpu_usage.length
        = (ResourceMonitor.init i).memory_usage.length
    ∧ m.start.cpu_usage.length = m.start.memory_usage.length
    ∧ (m.stop.1).cpu_usage.length = (m.stop.1).memory_usage.length
    ∧ (monitorLoop m obs).cpu_usage.length
        = (monitorLoop m obs).memory_usage.length
    ∧ ((monitorLoop m obs).cpu_usage.isEmpty
        ↔ (monitorLoop m obs).memory_usage.isEmpty) := by
  have hlen := monitorLoop_len_eq obs m h
  refine ⟨rfl, h, h, hlen, ?_⟩
  simp only [List.isEmpty_iff_length_eq_zero, hlen]

theorem sample_series_lengths_witness :
    (monitorLoop (ResourceMonitor.init (1/10)).start
        ((Except.ok 3, Except.ok 7) :: [(Except.ok 4, Except.error "gone")])
      ).cpu_usage.length
    = (monitorLoop (ResourceMonitor.init (1/10)).start
        ((Except.ok 3, Except.ok 7) :: [(Except.ok 4, Except.error "gone")])
      ).memory_usage.length := by
  exact (sample_series_lengths_agree (1/10) (ResourceMonitor.init (1/10)).start
    ((Except.ok 3, Except.ok 7) :: [(Except.ok 4, Except.error "gone")]) rfl).2.2.2.1

/-- C10: calling `stop()` on a monitor that was never started is a safe
no-op: no thread exists, so the join is skipped (`stop` reports no join was
performed), `stop` returns normally, and `get_stats` afterwards returns
`(0, 0)`. -/
theorem stop_without_start_safe (i : ℚ) :
    (ResourceMonitor.init i).thread = none
    ∧ ((ResourceMonitor.init i).stop).2 = false
    ∧ (((ResourceMonitor.init i).stop).1).get_stats = (0, 0) := by
  exact ⟨rfl, rfl, rfl⟩

/-- Program counter of the sampling thread: at the `while self.running`
check, inside the loop body (taking one observation), or returned. -/
inductive ThreadPC where
  | loopHead
  | body
  | done
  deriving DecidableEq, Repr

/-- Joint state of the main thread's `stop()` call and the sampling thread
spawned by `start()`: the shared `running` flag, the thread's program
counter, the appended samples, whether the main thread has executed
`self.running = False`, and whether its `self.thread.join()` has returned. -/
structure MonitorSys where
  running : Bool
  pc : ThreadPC
  samples : List (ℚ × ℚ)
  stopSignalled : Bool
  stopReturned : Bool

/-- State right after `start()`: the thread is at the loop check, the flag
is set, no samples yet, `stop()` not yet invoked. -/
def startState : MonitorSys :=
  { running := true, pc := .loopHead, samples := [], stopSignalled := false,
    stopReturned := false }

/-- Interleaved small-step semantics of the sampling thread
(`_monitor`, lines 21–33) and the main thread's `stop()` (lines 40–43):
the thread checks the flag at the loop head, takes an observation in the
body (appending one sample on success, breaking on failure); the main
thread first clears the flag, and its `join()` returns only once the
thread function has returned. -/
inductive SysStep : MonitorSys → MonitorSys → Prop where
  | checkTrue (s : MonitorSys) : s.pc = .loopHead → s.running = true →
      SysStep s { s with pc := .body }
  | checkFalse (s : MonitorSys) : s.pc = .loopHead → s.running = false →
      SysStep s { s with pc := .done }
  | sampleOk (s : MonitorSys) (c mem : ℚ) : s.pc = .body →
      SysStep s { s with pc := .loopHead, samples := s.samples ++ [(c, mem)] }
  | sampleFail (s : MonitorSys) : s.pc = .body →
      SysStep s { s with pc := .done }
  | stopSignal (s : MonitorSys) : s.stopSignalled = false →
      SysStep s { s with running := false, stopSignalled := true }
  | joinReturn (s : MonitorSys) : s.stopSignalled = true → s.pc = .done →
      s.stopReturned = false → SysStep s { s with stopReturned := true }

theorem sysStep_done (s s' : MonitorSys) (hstep : SysStep s s')
    (hdone : s.pc = .done) : s'.pc = .done ∧ s'.samples = s.samples := by
  cases hstep <;> simp_all

theorem sysStep_inv (s s' : MonitorSys) (hstep : SysStep s s')
    (hinv : s.stopReturned = true → s.pc = .done) :
    s'.stopReturned = true → s'.pc = .done := by
  cases hstep <;> simp_all

theorem reachable_inv (s : MonitorSys)
    (hreach : Relation.ReflTransGen SysStep startState s) :
    s.stopReturned = true → s.pc = .done := by
  induction hreach with
  | refl => intro h; exact absurd h (by simp [startState])
  | tail hr hstep ih => exact sysStep_inv _ _ hstep ih

/-- C4: `stop()` blocks until the sampling thread has fully terminated:
in any execution that reaches a state where `stop()` has returned, the
sample series never changes again — no sample is appended after `stop()`
returns control to the caller. -/
theorem no_append_after_stop_returns (s s' : MonitorSys)
    (hreach : Relation.ReflTransGen SysStep startState s)
    (hstop : s.stopReturned = true)
    (hsteps : Relation.ReflTransGen SysStep s s') :
    s'.samples = s.samples ∧ s'.pc = .done := by
  have hdone : s.pc = .done := reachable_inv s hreach hstop
  induction hsteps with
  | refl => exact ⟨rfl, hdone⟩
  | tail hr hstep ih =>
      obtain ⟨hsamples, hpc⟩ := ih
      obtain ⟨hpc', hsamples'⟩ := sysStep_done _ _ hstep hpc
      exact ⟨hsamples'.trans hsamples, hpc'⟩

theorem no_append_after_stop_witness :
    ({ running := false, pc := .done, samples := [(5, 50)],
       stopSignalled := true, stopReturned := true } : MonitorSys).samples
      = [(5, 50)]
    ∧ ({ running := false, pc := .done, samples := [(5, 50)],
         stopSignalled := true, stopReturned := true } : MonitorSys).samples
      = ({ running := false, pc := .done, samples := [(5, 50)],
           stopSignalled := true, stopReturned := true } : MonitorSys).samples := by
  have h1 : SysStep startState
      { running := true, pc := .body, samples := [], stopSignalled := false,
        stopReturned := false } :=
    SysStep.checkTrue startState rfl rfl
  have h2 : SysStep
      { running := true, pc := .body, samples := [], stopSignalled := false,
        stopReturned := false }
      { running := true, pc := .loopHead, samples := [(5, 50)],
        stopSignalled := false, stopReturned := false } :=
    SysStep.sampleOk _ 5 50 rfl
  have h3 : SysStep
      { running := true, pc := .loopHead, samples := [(5, 50)],
        stopSignalled := false, stopReturned := false }
      { running := false, pc := .loopHead, samples := [(5, 50)],
        stopSignalled := true, stopReturned := false } :=
    SysStep.stopSignal _ rfl
  have h4 : SysStep
      { running := false, pc := .loopHead, samples := [(5, 50)],
        stopSignalled := true, stopReturned := false }
      { running := false, pc := .done, samples := [(5, 50)],
        stopSignalled := true, stopReturned := false } :=
    SysStep.checkFalse _ rfl rfl
  have h5 : SysStep
      { running := false, pc := .done, samples := [(5, 50)],
        stopSignalled := true, stopReturned := false }
      { running := false, pc := .done, samples := [(5, 50)],
        stopSignalled := true, stopReturned := true } :=
    SysStep.joinReturn _ rfl rfl rfl
  have htrace : Relation.ReflTransGen SysStep startState
      { running := false, pc := .done, samples := [(5, 50)],
        stopSignalled := true, stopReturned := true } :=
    Relation.ReflTransGen.head h1 (Relation.ReflTransGen.head h2
      (Relation.ReflTransGen.head h3 (Relation.ReflTransGen.head h4
        (Relation.ReflTransGen.head h5 Relation.ReflTransGen.refl))))
  have h := no_append_after_stop_returns _ _ htrace rfl Relation.ReflTransGen.refl
  exact ⟨rfl, h.1⟩

/-- Observable events of one `run_query` call, in program order: a
`time.time()` reading, `monitor.start()`, the printed per-query error log,
and `monitor.stop()`. -/
inductive Event where
  | timeRead (t : ℚ)
  | monStart
  | errorLogged (msg : String)
  | monStop
  deriving DecidableEq

/-- State threaded through `run_query`: the event log and the monitor. -/
structure RQState where
  events : List Event
  monitor : ResourceMonitor

def logEvent (e : Event) (s : RQState) : RQState :=
  { s with events := s.events ++ [e] }

/-- Python's `try: body / except Exception as e: handler / finally: cleanup`
(lines 68–73): the handler absorbs the error (nothing re-raised), and the
cleanup runs on every exit path, success or failure. -/
def tryExceptFinally {α : Type} (body : Except String α)
    (handler : String → RQState → RQState) (cleanup : RQState → RQState)
    (s : RQState) : RQState :=
  match body with
  | .ok _ => cleanup s
  | .error e => cleanup (handler e s)

/-- Inputs of one `run_query` call: the successive `time.time()` readings,
the outcome of `conn.execute(sql).fetchall()`, and the observation stream
consumed by the concurrently sampling monitor thread. -/
structure RunInput where
  timeline : ℕ → ℚ
  outcome : Except String Unit
  obs : List (Except String ℚ × Except String ℚ)

/-- `run_query` (lines 52–80): record `start_time`, start a fresh monitor
(which samples concurrently while the blocking call runs), execute the
query inside try/except/finally with `monitor.stop()` in the `finally`,
record `end_time`, then return
`(end_time - start_time, avg_cpu, max_mem)` from `monitor.get_stats()` —
on the failure path as well, since the exception is caught and logged
inside `run_query`. -/
def run_query (inp : RunInput) : RQState × (ℚ × ℚ × ℚ) :=
  let start_time := inp.timeline 0
  let s0 : RQState :=
    { events := [Event.timeRead start_time, Event.monStart],
      monitor := (ResourceMonitor.init (1/10)).start }
  let s1 : RQState := { s0 with monitor := monitorLoop s0.monitor inp.obs }
  let s2 := tryExceptFinally inp.outcome
    (fun e s => logEvent (.errorLogged e) s)
    (fun s => logEvent .monStop { s with monitor := (s.monitor.stop).1 })
    s1
  let end_time := inp.timeline 1
  let s3 := logEvent (.timeRead end_time) s2
  let stats := s3.monitor.get_stats
  (s3, (end_time - start_time, stats.1, stats.2))

theorem run_query_duration (inp : RunInput) :
    ((run_query inp).2).1 = inp.timeline 1 - inp.timeline 0 := rfl

theorem run_query_stats (inp : RunInput) :
    ((run_query inp).2).2 =
      (monitorLoop ((ResourceMonitor.init (1/10)).start) inp.obs).get_stats := by
  obtain ⟨tl, outcome, obs⟩ := inp
  cases outcome <;> rfl

/-- C5: on every exit path of `run_query` — the engine call succeeding or
raising — the monitor is stopped before the end timestamp is recorded
(the `monStop` event strictly precedes the final `timeRead`, which is the
last event), and the returned duration is the wall-clock difference
`end_time - start_time` on both paths. -/
theorem wrapper_stops_monitor_on_every_path (inp : RunInput) :
    ((run_query inp).2).1 = inp.timeline 1 - inp.timeline 0
    ∧ ∃ i j, i < j
        ∧ ((run_query inp).1).events[i]? = some Event.monStop
        ∧ ((run_query inp).1).events[j]? = some (Event.timeRead (inp.timeline 1))
        ∧ j = ((run_query inp).1).events.length - 1 := by
  obtain ⟨tl, outcome, obs⟩ := inp
  cases outcome with
  | ok u => exact ⟨rfl, 2, 3, by omega, rfl, rfl, rfl⟩
  | error e => exact ⟨rfl, 3, 4, by omega, rfl, rfl, rfl⟩

/-- Per-configuration iteration loop of `main` (lines 188–192): for each of
the `ITERATIONS` iterations, call `run_query` and append its returned
duration, cpu average, and memory peak to `times`, `cpus`, `mems` —
unconditionally, whether or not the engine call inside that iteration
failed (the exception is caught inside `run_query`). -/
def runIterations (inputs : List RunInput) : List ℚ × List ℚ × List ℚ :=
  (inputs.map fun inp => ((run_query inp).2).1,
   inputs.map fun inp => ((run_query inp).2).2.1,
   inputs.map fun inp => ((run_query inp).2).2.2)

/-- One row of the persisted result table (lines 198–207 and 290–300):
`Data_Scale` is only set by the third experiment. -/
structure AggregatedRecord where
  experiment : String
  format : String
  query : String
  threads : ℕ
  avg_time : ℚ
  avg_cpu : ℚ
  max_mem : ℚ
  raw_times : List ℚ
  data_scale : Option String

/-- Aggregation and record construction for one configuration
(lines 194–207): `avg_time = sum(times)/len(times)`,
`avg_cpu = sum(cpus)/len(cpus)`, `max_mem = max(mems)`. Python's `max`
raises on an empty list, which never happens in `main` since
`ITERATIONS = 5`; the model returns 0 there. -/
def runConfig (experiment fmt query : String) (threads : ℕ)
    (dataScale : Option String) (inputs : List RunInput) : AggregatedRecord :=
  { experiment := experiment, format := fmt, query := query, threads := threads,
    avg_time := (runIterations inputs).1.sum / (runIterations inputs).1.length,
    avg_cpu := (runIterations inputs).2.1.sum / (runIterations inputs).2.1.length,
    max_mem := (pyMax (runIterations inputs).2.2).getD 0,
    raw_times := (runIterations inputs).1,
    data_scale := dataScale }

/-- `THREAD_COUNTS` (line 94). -/
def THREAD_COUNTS : List ℕ := [1, 2, 4, 8, 16, 24]

/-- `ITERATIONS` (line 97). -/
def ITERATIONS : ℕ := 5

/-- Keys of the `QUERIES` dict (lines 103–131) in declared order. -/
def queryNames : List String := ["Q1", "Q2", "Q3"]

/-- Keys of the `scales` dict (lines 259–263) in declared order. -/
def scaleNames : List String := ["1_Month", "1_Year", "3_Years"]

/-- `max_threads = max(THREAD_COUNTS)` (line 211). -/
def maxThreads : ℕ := THREAD_COUNTS.foldl max 0

/-- Experiment 1 (lines 178–207): for each thread count, for each query,
run the iterations and append one Parallelism record. -/
def parallelismPhase (runs : ℕ → String → List RunInput) :
    List AggregatedRecord :=
  THREAD_COUNTS.flatMap fun t =>
    queryNames.map fun q => runConfig "Parallelism" "Parquet" q t none (runs t q)

/-- Experiment 2 (lines 218–250): skipped entirely when no CSV files match,
otherwise one Format_Comparison record per query at `max_threads`. -/
def formatPhase (csvPresent : Bool) (runs : String → List RunInput) :
    List AggregatedRecord :=
  if csvPresent then
    queryNames.map fun q =>
      runConfig "Format_Comparison" "CSV" q maxThreads none (runs q)
  else []

/-- Experiment 3 (lines 265–300): per scale label in declared order, skip
the scale when no files match, otherwise one Data_Scale record per query. -/
def dataScalePhase (scalePresent : String → Bool)
    (runs : String → String → List RunInput) : List AggregatedRecord :=
  scaleNames.flatMap fun sc =>
    if scalePresent sc then
      queryNames.map fun q =>
        runConfig "Data_Scale" "Parquet" q maxThreads (some sc) (runs sc q)
    else []

/-- The `results` list built by `main` (lines 159–304): empty when no
parquet files are found (early return at line 171), otherwise the three
experiment phases appended in program order. -/
def mainResults (parquetPresent csvPresent : Bool)
    (scalePresent : String → Bool) (runsP : ℕ → String → List RunInput)
    (runsF : String → List RunInput) (runsS : String → String → List RunInput) :
    List AggregatedRecord :=
  if parquetPresent then
    parallelismPhase runsP ++ formatPhase csvPresent runsF
      ++ dataScalePhase scalePresent runsS
  else []

/-- C6: the record emitted for a configuration has `avg_time` equal to the
mean of the per-run durations, `avg_cpu` equal to the mean of the per-run
average cpu percentages, and `max_mem` a maximum (a member that bounds all
others) of the per-run peak memory values. -/
theorem aggregated_record_mean_and_peak (e f q : String) (t : ℕ)
    (ds : Option String) (inputs : List RunInput) (h : inputs ≠ []) :
    (runConfig e f q t ds inputs).avg_time
      = mean (inputs.map fun i => ((run_query i).2).1)
    ∧ (runConfig e f q t ds inputs).avg_cpu
      = mean (inputs.map fun i => ((run_query i).2).2.1)
    ∧ (runConfig e f q t ds inputs).max_mem
        ∈ inputs.map (fun i => ((run_query i).2).2.2)
    ∧ ∀ y ∈ inputs.map (fun i => ((run_query i).2).2.2),
        y ≤ (runConfig e f q t ds inputs).max_mem := by
  have hne : (runIterations inputs).2.2 ≠ [] := by
    simp only [runIterations, ne_eq, List.map_eq_nil_iff]
    exact h
  obtain ⟨v, hv, hvmem, hvub⟩ := pyMax_spec _ hne
  refine ⟨rfl, rfl, ?_, ?_⟩
  · show (pyMax (runIterations inputs).2.2).getD 0 ∈ _
    rw [hv, Option.getD_some]
    exact hvmem
  · intro y hy
    show y ≤ (pyMax (runIterations inputs).2.2).getD 0
    rw [hv, Option.getD_some]
    exact hvub y hy

/-- One mocked execution for the end-to-end scenario: duration `d` (the
clock reads 0 then `d`), a successful engine call, and one resource sample
`(cpu, mem)`. -/
def scenarioInput (d cpu mem : ℚ) : RunInput :=
  { timeline := fun n => if n = 0 then 0 else d,
    outcome := Except.ok (), obs := okObs [(cpu, mem)] }

/-- The claim's end-to-end scenario: durations [1, 2, 3], per-run cpu
averages [10, 20, 30], per-run memory peaks [100, 150, 120]. -/
def scenarioInputs : List RunInput :=
  [scenarioInput 1 10 100, scenarioInput 2 20 150, scenarioInput 3 30 120]

theorem run_query_scenario_stats (d cpu mem : ℚ) :
    ((run_query (scenarioInput d cpu mem)).2).2 = (cpu, mem) := by
  rw [run_query_stats]
  show (monitorLoop ((ResourceMonitor.init (1/10)).start)
    (okObs [(cpu, mem)])).get_stats = _
  rw [monitorLoop_okObs]
  simp [ResourceMonitor.get_stats, ResourceMonitor.init, ResourceMonitor.start,
    pyMax]

theorem aggregated_record_witness :
    scenarioInputs ≠ []
    ∧ (runConfig "Parallelism" "Parquet" "Q1" 4 none scenarioInputs).avg_time
      = mean (scenarioInputs.map fun i => ((run_query i).2).1)
    ∧ (runConfig "Parallelism" "Parquet" "Q1" 4 none scenarioInputs).avg_time = 2
    ∧ (runConfig "Parallelism" "Parquet" "Q1" 4 none scenarioInputs).avg_cpu = 20
    ∧ (runConfig "Parallelism" "Parquet" "Q1" 4 none scenarioInputs).max_mem = 150
    ∧ (runConfig "Parallelism" "Parquet" "Q1" 4 none scenarioInputs).raw_times
      = [1, 2, 3] := by
  have hne : scenarioInputs ≠ [] := by simp [scenarioInputs]
  have h := aggregated_record_mean_and_peak "Parallelism" "Parquet" "Q1" 4 none
    scenarioInputs hne
  have h1 : (runIterations scenarioInputs).1 = [1, 2, 3] := by
    simp only [runIterations, scenarioInputs, List.map_cons, List.map_nil,
      run_query_duration]
    norm_num [scenarioInput]
  have h2 : (runIterations scenarioInputs).2.1 = [10, 20, 30] := by
    simp [runIterations, scenarioInputs, run_query_scenario_stats]
  have h3 : (runIterations scenarioInputs).2.2 = [100, 150, 120] := by
    simp [runIterations, scenarioInputs, run_query_scenario_stats]
  refine ⟨hne, h.1, ?_, ?_, ?_, h1⟩
  · show (runIterations scenarioInputs).1.sum
      / (runIterations scenarioInputs).1.length = 2
    rw [h1]; norm_num
  · show (runIterations scenarioInputs).2.1.sum
      / (runIterations scenarioInputs).2.1.length = 20
    rw [h2]; norm_num
  · show (pyMax (runIterations scenarioInputs).2.2).getD 0 = 150
    rw [h3]
    have hm1 : max (100 : ℚ) 150 = 150 := max_eq_right (by norm_num)
    have hm2 : max (150 : ℚ) 120 = 150 := max_eq_left (by norm_num)
    simp [pyMax, hm1, hm2]

/-- One iteration input with duration `d` (the clock reads 0 then `d`), a
given engine outcome, and no resource samples. -/
def mkInput (d : ℚ) (outcome : Except String Unit) : RunInput :=
  { timeline := fun n => if n = 0 then 0 else d, outcome := outcome, obs := [] }

/-- Five iterations of one configuration where iteration 3 raises an
execution error; the measured wall-clock durations are
[1, 2, 100, 4, 5]. -/
def fiveIterOneFailing : List RunInput :=
  [mkInput 1 (Except.ok ()), mkInput 2 (Except.ok ()),
   mkInput 100 (Except.error "Binder Error"), mkInput 4 (Except.ok ()),
   mkInput 5 (Except.ok ())]

def isOkOutcome : Except String Unit → Bool
  | .ok _ => true
  | .error _ => false

/-- C1 counterexample: with 5 iterations of which iteration 3 fails
(4 successes), the record's `Raw_Times` has length 5 — not 4 — and
`avg_time` is the mean over all 5 measured durations (112/5), not the mean
of the 4 successful durations (3): `run_query` catches the engine error
internally and `main` appends the failed iteration's values anyway. -/
theorem failed_iteration_included_counterexample :
    (fiveIterOneFailing.countP fun i => isOkOutcome i.outcome) = 4
    ∧ (runConfig "Parallelism" "Parquet" "Q1" 4 none
        fiveIterOneFailing).raw_times.length = 5
    ∧ (runConfig "Parallelism" "Parquet" "Q1" 4 none
        fiveIterOneFailing).avg_time = 112 / 5
    ∧ ¬((runConfig "Parallelism" "Parquet" "Q1" 4 none
          fiveIterOneFailing).raw_times.length = 4
        ∧ (runConfig "Parallelism" "Parquet" "Q1" 4 none
            fiveIterOneFailing).avg_time = mean [1, 2, 4, 5]) := by
  have h1 : (runIterations fiveIterOneFailing).1 = [1, 2, 100, 4, 5] := by
    simp only [runIterations, fiveIterOneFailing, List.map_cons, List.map_nil,
      run_query_duration]
    norm_num [mkInput]
  have havg : (runConfig "Parallelism" "Parquet" "Q1" 4 none
      fiveIterOneFailing).avg_time = 112 / 5 := by
    show (runIterations fiveIterOneFailing).1.sum
      / (runIterations fiveIterOneFailing).1.length = 112 / 5
    rw [h1]; norm_num
  have hlen : (runConfig "Parallelism" "Parquet" "Q1" 4 none
      fiveIterOneFailing).raw_times.length = 5 := by
    show (runIterations fiveIterOneFailing).1.length = 5
    rw [h1]; rfl
  refine ⟨by decide, hlen, havg, ?_⟩
  rintro ⟨hbad, -⟩
  rw [hlen] at hbad
  exact absurd hbad (by norm_num)

/-- C1 (amended): failed iterations are NOT excluded from the averages:
`run_query` traps the engine error internally and still returns its
wall-clock measurement, so for every configuration `Raw_Times` has length
equal to the total iteration count and `avg_time` is the mean over all
iterations' durations, failed ones included; the run result of an
iteration does not depend on whether its engine call succeeded. -/
theorem raw_times_cover_all_iterations (e f q : String) (t : ℕ)
    (ds : Option String) (inputs : List RunInput) :
    (runConfig e f q t ds inputs).raw_times.length = inputs.length
    ∧ (runConfig e f q t ds inputs).avg_time
      = mean (inputs.map fun i => i.timeline 1 - i.timeline 0)
    ∧ ∀ (tl : ℕ → ℚ) (o1 o2 : Except String Unit)
        (obs : List (Except String ℚ × Except String ℚ)),
        ((run_query ⟨tl, o1, obs⟩).2).1 = ((run_query ⟨tl, o2, obs⟩).2).1 := by
  refine ⟨?_, rfl, fun tl o1 o2 obs => rfl⟩
  show (runIterations inputs).1.length = inputs.length
  simp [runIterations]

/-- Per-configuration iteration inputs where every iteration fails. -/
def allFailRuns : ℕ → String → List RunInput :=
  fun _ _ => List.replicate 5 (mkInput 1 (Except.error "IO Error"))

/-- C2 counterexample: when every iteration of every configuration fails,
`main` still appends one AggregatedRecord per configuration: the
Parallelism phase emits all 18 records (6 thread counts × 3 queries),
including exactly one for (threads = 1, Q1), each with `Raw_Times` of
length 5 — not zero records. -/
theorem all_fail_record_still_appended_counterexample :
    (parallelismPhase allFailRuns).length = 18
    ∧ ((parallelismPhase allFailRuns).filter fun r =>
        r.threads == 1 && r.query == "Q1").length = 1
    ∧ ∀ r ∈ parallelismPhase allFailRuns, r.raw_times.length = 5 := by
  refine ⟨rfl, ?_, ?_⟩
  · rfl
  · intro r hr
    simp only [parallelismPhase, List.mem_flatMap, List.mem_map] at hr
    obtain ⟨t, ht, q, hq, rfl⟩ := hr
    show (runIterations (allFailRuns t q)).1.length = 5
    simp [runIterations, allFailRuns]

/-- C2 (amended): the runner appends one AggregatedRecord for every
enumerated configuration regardless of iteration outcomes — in particular
even when all iterations fail — and each failing iteration's error is
logged inside `run_query` (nothing is raised, so the runner proceeds to
the next configuration). -/
theorem record_appended_for_every_config
    (runs : ℕ → String → List RunInput) :
    (parallelismPhase runs).map (fun r => (r.threads, r.query))
      = (THREAD_COUNTS.flatMap fun t => queryNames.map fun q => (t, q))
    ∧ ∀ (e : String) (tl : ℕ → ℚ)
        (obs : List (Except String ℚ × Except String ℚ)),
        Event.errorLogged e ∈ ((run_query ⟨tl, Except.error e, obs⟩).1).events := by
  constructor
  · simp [parallelismPhase, runConfig, THREAD_COUNTS, queryNames]
  · intro e tl obs
    show Event.errorLogged e ∈
      [Event.timeRead (tl 0), Event.monStart, Event.errorLogged e,
       Event.monStop, Event.timeRead (tl 1)]
    simp

/-- C7: records are appended to the results list in the deterministic
enumeration order of the configurations — thread counts in the (strictly
ascending) declared `THREAD_COUNTS` order in the parallelism phase,
queries in declared order within each thread count, phases in program
order — independently of the per-run inputs; in particular the record for
(threads = 1, Q1) precedes the record for (threads = 2, Q1). -/
theorem result_sink_enumeration_order (runsP : ℕ → String → List RunInput)
    (runsF : String → List RunInput)
    (runsS : String → String → List RunInput) :
    (mainResults true true (fun _ => true) runsP runsF runsS).map
        (fun r => (r.experiment, r.threads, r.query))
      = [("Parallelism", 1, "Q1"), ("Parallelism", 1, "Q2"),
         ("Parallelism", 1, "Q3"),
         ("Parallelism", 2, "Q1"), ("Parallelism", 2, "Q2"),
         ("Parallelism", 2, "Q3"),
         ("Parallelism", 4, "Q1"), ("Parallelism", 4, "Q2"),
         ("Parallelism", 4, "Q3"),
         ("Parallelism", 8, "Q1"), ("Parallelism", 8, "Q2"),
         ("Parallelism", 8, "Q3"),
         ("Parallelism", 16, "Q1"), ("Parallelism", 16, "Q2"),
         ("Parallelism", 16, "Q3"),
         ("Parallelism", 24, "Q1"), ("Parallelism", 24, "Q2"),
         ("Parallelism", 24, "Q3"),
         ("Format_Comparison", 24, "Q1"), ("Format_Comparison", 24, "Q2"),
         ("Format_Comparison", 24, "Q3"),
         ("Data_Scale", 24, "Q1"), ("Data_Scale", 24, "Q2"),
         ("Data_Scale", 24, "Q3"),
         ("Data_Scale", 24, "Q1"), ("Data_Scale", 24, "Q2"),
         ("Data_Scale", 24, "Q3"),
         ("Data_Scale", 24, "Q1"), ("Data_Scale", 24, "Q2"),
         ("Data_Scale", 24, "Q3")]
    ∧ List.Chain' (fun a b => a < b) THREAD_COUNTS
    ∧ ∃ i j : ℕ, i < j
        ∧ ((mainResults true true (fun _ => true) runsP runsF runsS).map
            (fun r => (r.threads, r.query)))[i]? = some (1, "Q1")
        ∧ ((mainResults true true (fun _ => true) runsP runsF runsS).map
            (fun r => (r.threads, r.query)))[j]? = some (2, "Q1") := by
  refine ⟨rfl, ?_, 0, 3, by omega, rfl, rfl⟩
  show List.Chain' (fun a b => a < b) [1, 2, 4, 8, 16, 24]
  simp only [List.chain'_cons, List.chain'_singleton, and_true]
  omega
